import Mathlib

/-!
Verification development for the GithubService connector
(`sphinxcontrib/needs/services/github.py`).

The Python module is shallowly embedded below.  Python strings are Lean
`String`s (manipulated through their `List Char` data where the semantics
matter), Python dicts that the code iterates over are association lists in
insertion order, and Python exceptions are an explicit error type returned
through `Except`.  The one HTTP call (`requests.get`, github.py line 104)
is the transport boundary: it is passed in as a function from the request
parameters to the parsed `items` list, and the embedding counts how often
it is invoked.
-/

/-! ## Python string primitives -/

/-- One step of Python `str.splitlines` over the character list.  `acc` holds
the current (reversed) line.  Matches CPython: a trailing newline does not
produce a final empty line, and `"".splitlines() == []`. -/
def splitLinesGo (acc : List Char) : List Char → List (List Char)
  | [] => if acc.isEmpty then [] else [acc.reverse]
  | c :: cs => if c = '\n' then acc.reverse :: splitLinesGo [] cs else splitLinesGo (c :: acc) cs

/-- Python `s.splitlines()` (the embedded strings only use `'\n'` line ends). -/
def pySplitlines (s : String) : List String :=
  (splitLinesGo [] s.data).map String.mk

/-- Python `s.strip()`: remove leading and trailing whitespace. -/
def pyStrip (s : String) : String :=
  String.mk (((s.data.dropWhile Char.isWhitespace).reverse.dropWhile Char.isWhitespace).reverse)

/-- Python `sep.join(xs)`. -/
def pyJoin (sep : String) : List String → String
  | [] => ""
  | [x] => x
  | x :: y :: ys => x ++ sep ++ pyJoin sep (y :: ys)

/-- Python list slice `xs[0:m]`: a negative `m` counts from the end of the
list, clamping at zero. -/
def pySlice0 (m : Int) (xs : List α) : List α :=
  xs.take (if 0 ≤ m then m.toNat else ((xs.length : Int) + m).toNat)

/-- `leadEq pat l` is true when `pat` is an initial segment of `l`. -/
def leadEq : List Char → List Char → Bool
  | [], _ => true
  | _ :: _, [] => false
  | a :: as, b :: bs => a == b && leadEq as bs

/-- Helper for substring occurrence over character lists. -/
def occursInAux (pat : List Char) : List Char → Bool
  | [] => leadEq pat []
  | c :: cs => leadEq pat (c :: cs) || occursInAux pat cs

/-- Python `pat in s` (substring occurrence). -/
def occursIn (pat s : String) : Bool := occursInAux pat.data s.data

/-! ## A model of `textwrap.wrap`

`github.py` line 121 calls
`textwrap.wrap(line, 60, break_long_words=True, replace_whitespace=False)`.
The following definitions model CPython's `TextWrapper` with those options
(`drop_whitespace=True`, empty indents): the line is split into maximal runs
of whitespace and non-whitespace characters, then runs are packed greedily
into lines of at most `width` characters, breaking a run longer than the
whole width mid-word.  The hyphen-aware refinements of CPython's chunking
(`break_on_hyphens`) are omitted; no text handled by the claims contains
hyphens. -/

/-- Split into maximal runs of whitespace / non-whitespace characters. -/
def chunkRuns : List Char → List (List Char)
  | [] => []
  | c :: cs =>
    match chunkRuns cs with
    | [] => [[c]]
    | [] :: gs => [c] :: gs
    | (d :: ds) :: gs =>
      if c.isWhitespace == d.isWhitespace then (c :: d :: ds) :: gs
      else [c] :: (d :: ds) :: gs

/-- Greedily collect leading chunks whose cumulative length stays within
`width`; returns the collected chunks and the remainder. -/
def packChunks (width : Nat) : List String → Nat → List String × List String
  | [], _ => ([], [])
  | c :: cs, len =>
    if len + c.length ≤ width then
      let (line, rest) := packChunks width cs (len + c.length)
      (c :: line, rest)
    else ([], c :: cs)

/-- One output line per iteration of CPython's `_wrap_chunks` loop.  `fuel`
bounds the iteration count; it is chosen large enough that it never runs
out (every iteration consumes at least one character). -/
def wrapAux (width : Nat) : Nat → List String → List String → List String
  | 0, _, lines => lines
  | _, [], lines => lines
  | fuel + 1, c0 :: cs, lines =>
    let chunks1 := if lines.length > 0 && (pyStrip c0 == "") then cs else c0 :: cs
    let (cur, rest) := packChunks width chunks1 0
    let curLen := (cur.map String.length).sum
    let (cur2, rest2) :=
      match rest with
      | r :: rs =>
        if width < r.length then
          let spaceLeft := if width < 1 then 1 else width - curLen
          (cur ++ [String.mk (r.data.take spaceLeft)], String.mk (r.data.drop spaceLeft) :: rs)
        else (cur, r :: rs)
      | [] => (cur, [])
    let cur3 := if cur2.length > 0 && (pyStrip ((cur2.getLast?).getD "") == "") then cur2.dropLast else cur2
    let lines2 := if cur3.length > 0 then lines ++ [pyJoin "" cur3] else lines
    wrapAux width fuel rest2 lines2

/-- `textwrap.wrap(line, width, break_long_words=True, replace_whitespace=False)`. -/
def textwrapWrap (width : Nat) (line : String) : List String :=
  wrapAux width (line.data.length + 2) ((chunkRuns line.data).map String.mk) []

/-! ## Data model -/

/-- A value in a caller options mapping / produced item: the embedded code
only ever stores strings and integers. -/
inductive Value where
  | str (s : String)
  | int (z : Int)
deriving DecidableEq

/-- Python `f"{v}"` / `str(v)`. -/
def Value.toStr : Value → String
  | .str s => s
  | .int z => toString z

/-- Python `int(v)` as used at github.py line 127; every value the claims
pass there is already an integer (a non-numeric string would raise). -/
def Value.toInt : Value → Int
  | .int z => z
  | .str s => s.toInt?.getD 0

/-- A caller options mapping (`options` dict) in insertion order. -/
abbrev Options := List (String × Value)

/-- Python `options.get(k)` / `k in options`. -/
def getOpt (options : Options) (k : String) : Option Value :=
  (options.find? (fun p => p.1 == k)).map Prod.snd

/-- Lookup of a key in a produced item (`element_data` dict). -/
def itemGet (ed : List (String × Value)) (k : String) : Option Value :=
  (ed.find? (fun p => p.1 == k)).map Prod.snd

/-- A label object of a raw record (`{"name": ...}`). -/
structure Label where
  name : String
deriving DecidableEq

/-- The author object of a raw record. -/
structure RawUser where
  login : String
  avatar_url : String
deriving DecidableEq

/-- One raw record of the provider's search response (`response["items"][i]`),
with the fields github.py reads. -/
structure RawItem where
  number : Nat
  title : String
  body : String
  state : String
  labels : List Label
  user : RawUser
  html_url : String
  created_at : String
  updated_at : String
  closed_at : String
deriving DecidableEq

/-- github.py line 7. -/
def EXTRA_DATA_OPTIONS : List String := ["user", "created_at", "updated_at", "closed_at"]

/-- github.py line 8. -/
def EXTRA_LINK_OPTIONS : List String := ["url"]

/-- github.py line 9. -/
def EXTRA_IMAGE_OPTIONS : List String := ["avatar"]

/-- github.py line 12: options configuring the service, which per the
module's own comment "shall not be part of the later needs". -/
def CONFIG_OPTIONS : List String := ["type", "query", "max_amount", "max_content_lines", "id_prefix"]

/-- github.py line 15. -/
def GITHUB_DATA : List String :=
  ["status", "tags"] ++ EXTRA_DATA_OPTIONS ++ EXTRA_LINK_OPTIONS ++ EXTRA_IMAGE_OPTIONS

/-- The fixed keys `element_data` is constructed with (github.py 140-154);
also the required item keys of the spec's Item schema (spec section 3). -/
def requiredItemKeys : List String :=
  ["type", "layout", "id", "title", "content", "status", "tags", "user", "url", "avatar",
   "created_at", "updated_at", "closed_at"]

/-- Errors raised by the embedded code, tagged by the Python exception
class raised. -/
inductive GithubError where
  /-- Reading `self.type` when no `type` kwarg was given (github.py 87-90):
  the attribute was never assigned, so Python raises `AttributeError`. -/
  | attributeError
  /-- The unsupported-kind `KeyError` of github.py line 91, with its message. -/
  | keyError (msg : String)
  /-- The `NeedGithubServiceException` of github.py 167-168, with its
  message. -/
  | needGithubServiceException (msg : String)
deriving DecidableEq

/-- The immutable service configuration set in `GithubService.__init__`
(github.py 57-93). -/
structure GithubService where
  url : String
  need_type : String
  max_amount : Int
  max_content_lines : Int
  idPrefix : String
  layout : String
  type : String
deriving DecidableEq

/-- The keys of `self.type_config` (github.py 72-85). -/
def type_config_keys : List String := ["issue", "pr", "commit"]

/-- `self.type_config[t]["query"]` (github.py 72-85). -/
def type_config_query : String → String
  | "issue" => "is:issue"
  | "pr" => "is:pr"
  | _ => ""

/-- `self.type_config[t]["url"]` (github.py 72-85). -/
def type_config_url : String → String
  | "commit" => "search/commits"
  | _ => "search/issues"

/-- `GithubService.__init__` (github.py 57-93).  Each `config.get(key,
default)` becomes an optional argument with the source's default;
`appNeedType` stands for the external
`app.config.needs_types[0]["directive"]`, and `kwType` for the `type`
entry of `kwargs`.  When `kwargs` has no `type`, `self.type` is never
assigned, so the kind check at line 90 raises `AttributeError` (the base
class assigns no such attribute); otherwise line 91 raises `KeyError`
naming the supported kinds exactly when the kind is not a key of
`type_config`. -/
def GithubService.init (urlC needTypeC : Option String) (maxAmountC maxContentLinesC : Option Int)
    (idPrefixC layoutC : Option String) (appNeedType : String) :
    Option String → Except GithubError GithubService
  | none => .error .attributeError
  | some t =>
    if type_config_keys.contains t then
      .ok { url := urlC.getD "https://api.github.com/",
            need_type := needTypeC.getD appNeedType,
            max_amount := maxAmountC.getD 5,
            max_content_lines := maxContentLinesC.getD (-1),
            idPrefix := idPrefixC.getD "GITHUB_",
            layout := layoutC.getD "github",
            type := t }
    else
      .error (.keyError ("github type \"" ++ t ++ "\" not supported. Use: " ++
        pyJoin ", " type_config_keys))

/-! ## Text normalizer (github.py 120-136) -/

/-- github.py 121-122: split the body on newlines, drop blank lines, wrap
each survivor at 60 columns, and join each wrapped line's pieces with the
continuation indent. -/
def contentLinesOf (body : String) : List String :=
  ((pySplitlines body).filter (fun line => pyStrip line != "")).map
    (fun line => pyJoin "\n   " (textwrapWrap 60 line))

/-- github.py 124: join the logical lines with a blank line (plus the
continuation indent). -/
def reflow (body : String) : String :=
  pyJoin "\n\n   " (contentLinesOf body)

/-- github.py 126-132: only when the configured service default
`self.max_content_lines` is positive, cut the content at
`int(options.get("max_content_lines", self.max_content_lines))` physical
lines, appending the marker string `"\n   [...]\n"` as one list element
before re-joining. -/
def truncateContent (serviceMax : Int) (optMax : Option Int) (content : String) : String :=
  if 0 < serviceMax then
    let max_lines := optMax.getD serviceMax
    let content_lines := pySplitlines content
    if max_lines < (content_lines.length : Int) then
      pyJoin "\n" (pySlice0 max_lines content_lines ++ ["\n   [...]\n"])
    else content
  else content

/-- Reflow then truncate (github.py 120-132), without the final code-block
marker. -/
def normalizeContent (serviceMax : Int) (optMax : Option Int) (body : String) : String :=
  truncateContent serviceMax optMax (reflow body)

/-- github.py 136: the whole block behind a literal code-block marker plus
the continuation indent. -/
def normalizeBody (serviceMax : Int) (optMax : Option Int) (body : String) : String :=
  ".. code-block:: text\n\n   " ++ normalizeContent serviceMax optMax body

/-! ## Record mapper and option merger (github.py 138-160) -/

/-- The request parameters of `_send` (github.py 95-101): composed query
`f"{query} {type_config[type][query-key]}"` and
`per_page = options.get("max_amount", self.max_amount)`.  The HTTP GET
itself is the transport boundary. -/
structure SendParams where
  q : String
  per_page : Value
deriving DecidableEq

/-- github.py 95-100. -/
def GithubService.sendParams (s : GithubService) (query : String) (options : Options) : SendParams :=
  { q := query ++ " " ++ type_config_query s.type,
    per_page := (getOpt options "max_amount").getD (.int s.max_amount) }

/-- github.py 138-154: the item dict as first constructed, before extra
caller options are merged. -/
def GithubService.elementData (s : GithubService) (options : Options) (item : RawItem) :
    List (String × Value) :=
  let content := normalizeBody s.max_content_lines
    ((getOpt options "max_content_lines").map Value.toInt) item.body
  let pre := ((getOpt options "id_prefix").map Value.toStr).getD s.idPrefix
  let need_id := pre ++ toString item.number
  [("type", (getOpt options "type").getD (.str s.need_type)),
   ("layout", (getOpt options "layout").getD (.str s.layout)),
   ("id", .str need_id),
   ("title", .str item.title),
   ("content", .str content),
   ("status", .str item.state),
   ("tags", .str (pyJoin "," (item.labels.map Label.name))),
   ("user", .str item.user.login),
   ("url", .str item.html_url),
   ("avatar", .str item.user.avatar_url),
   ("created_at", .str item.created_at),
   ("updated_at", .str item.updated_at),
   ("closed_at", .str item.closed_at)]

/-- github.py 156-160: add each caller option whose key is not already a
key of `element_data` and not in `GITHUB_DATA`. -/
def mergeExtra (ed : List (String × Value)) (options : Options) : List (String × Value) :=
  options.foldl
    (fun ed kv =>
      if (ed.find? (fun p => p.1 == kv.1)).isNone && !(GITHUB_DATA.contains kv.1) then
        ed ++ [kv]
      else ed)
    ed

/-- Map one raw record and merge the caller options (github.py 119-160). -/
def GithubService.processItem (s : GithubService) (options : Options) (item : RawItem) :
    List (String × Value) :=
  mergeExtra (s.elementData options item) options

/-- The error raised at github.py line 113. -/
def missingQueryError : GithubError :=
  .needGithubServiceException "\"query\" missing as option for github service."

/-- `GithubService.request` (github.py 107-164).  `transport` stands for
the single `requests.get(...).json()["items"]` call; the returned `Nat`
counts how many times it was invoked. -/
def GithubService.request (s : GithubService) (options : Options)
    (transport : SendParams → List RawItem) :
    Except GithubError (List (List (String × Value))) × Nat :=
  match getOpt options "query" with
  | none => (.error missingQueryError, 0)
  | some q =>
    (.ok ((transport (s.sendParams (Value.toStr q) options)).map (s.processItem options)), 1)

/-! ## Python exception classes (for C10) -/

/-- The Python classes relevant to the error taxonomy. -/
inductive PyClass where
  | baseException
  | exception
  | needGithubServiceException
deriving DecidableEq

/-- The reflexive-transitive subclass relation generated by the declared
bases: `class NeedGithubServiceException(BaseException)` (github.py
167-168), and `Exception`'s base is `BaseException` (Python language). -/
def isSubclassOf (c t : PyClass) : Bool :=
  c == t ||
    match c with
    | .needGithubServiceException => t == .baseException
    | .exception => t == .baseException
    | .baseException => false

/-- The Python class of each embedded error (`AttributeError` and
`KeyError` are `Exception` subclasses). -/
def githubErrorClass : GithubError → PyClass
  | .attributeError => .exception
  | .keyError _ => .exception
  | .needGithubServiceException _ => .needGithubServiceException

/-- A Python `except H:` clause catches a raised instance of class `c`
exactly when `c` is a subclass of `H`. -/
def caughtBy (c handler : PyClass) : Bool := isSubclassOf c handler

/-- Whether an `Except` result is a success. -/
def exceptOk {ε α : Type} : Except ε α → Bool
  | .ok _ => true
  | .error _ => false

/-- First item of a successful request result (used by concrete
counterexamples). -/
def firstItem : Except GithubError (List (List (String × Value))) → List (String × Value)
  | .ok (ed :: _) => ed
  | _ => []

/-! ## Concrete inputs used by counterexamples and witnesses -/

/-- A service with every configuration default of `__init__` (in particular
`max_content_lines = -1`); `need_type` stands for the host's first
configured type directive. -/
def svcDflt : GithubService :=
  { url := "https://api.github.com/", need_type := "needtype0", max_amount := 5,
    max_content_lines := -1, idPrefix := "GITHUB_", layout := "github", type := "issue" }

/-- Like `svcDflt` but with a positive configured `max_content_lines`. -/
def svcPos : GithubService :=
  { url := "https://api.github.com/", need_type := "needtype0", max_amount := 5,
    max_content_lines := 1, idPrefix := "GITHUB_", layout := "github", type := "issue" }

/-- A raw record whose body reflows to five physical lines (three logical
lines separated by blank lines). -/
def rawA : RawItem :=
  { number := 1, title := "T", body := "a\nb\nc", state := "open",
    labels := [⟨"l1"⟩, ⟨"l2"⟩, ⟨"l3"⟩],
    user := { login := "alice", avatar_url := "https://avatar" },
    html_url := "https://u", created_at := "c", updated_at := "u", closed_at := "z" }

/-- A transport stub returning one raw record. -/
def trA : SendParams → List RawItem := fun _ => [rawA]

/-- Caller options with a positive `max_content_lines` of 2. -/
def C1opts : Options := [("query", Value.str "x"), ("max_content_lines", Value.int 2)]

/-- Caller options carrying two reserved internal keys. -/
def C2opts : Options := [("query", Value.str "x"), ("max_amount", Value.int 10)]

/-- Caller options shadowing the required keys `type` and `id`, plus a
novel key. -/
def C6opts : Options :=
  [("query", Value.str "q"), ("type", Value.str "custom"), ("id", Value.str "HACK"),
   ("mynote", Value.str "v")]

/-- Caller options with a query only. -/
def C6optsNoType : Options := [("query", Value.str "q")]

/-- Caller options overriding `type` and `layout`, shadowing the
structural key `id`, and carrying a novel key. -/
def C6optsW : Options :=
  [("query", Value.str "q"), ("type", Value.str "custom"), ("layout", Value.str "mylay"),
   ("id", Value.str "HACK"), ("mynote", Value.str "v")]

/-- Caller options with an explicit non-positive `max_amount`. -/
def C7opts : Options := [("query", Value.str "x"), ("max_amount", Value.int 0)]

/-- Caller options lacking the `query` key. -/
def noQueryOpts : Options := [("max_amount", Value.int 3)]

/-! ## Helper lemmas: strings and line splitting -/

theorem str_data_append (a b : String) : (a ++ b).data = a.data ++ b.data := rfl

theorem str_mk_data (s : String) : String.mk s.data = s := rfl

/-- Character-level `sep.join`. -/
def joinSepCh (sep : List Char) : List (List Char) → List Char
  | [] => []
  | [x] => x
  | x :: y :: ys => x ++ sep ++ joinSepCh sep (y :: ys)

theorem pyJoin_data (sep : String) (ls : List String) :
    (pyJoin sep ls).data = joinSepCh sep.data (ls.map String.data) := by
  induction ls with
  | nil => rfl
  | cons x t ih =>
    cases t with
    | nil => rfl
    | cons y ys =>
      show (x ++ sep ++ pyJoin sep (y :: ys)).data = _
      rw [str_data_append, str_data_append, ih]
      rfl

theorem joinSepCh_cons (sep x : List Char) (t : List (List Char)) (h : t ≠ []) :
    joinSepCh sep (x :: t) = x ++ sep ++ joinSepCh sep t := by
  cases t with
  | nil => exact absurd rfl h
  | cons y ys => rfl

theorem splitLinesGo_append : ∀ (l : List Char) (acc rest : List Char), '\n' ∉ l →
    splitLinesGo acc (l ++ '\n' :: rest) = (acc.reverse ++ l) :: splitLinesGo [] rest
  | [], acc, rest, _ => by simp [splitLinesGo]
  | c :: cs, acc, rest, hl => by
    have hc : ¬ c = '\n' := fun h => hl (by simp [h])
    show splitLinesGo acc (c :: (cs ++ '\n' :: rest)) = _
    simp only [splitLinesGo]
    rw [if_neg hc, splitLinesGo_append cs (c :: acc) rest (fun h => hl (by simp [h]))]
    simp

theorem splitLinesGo_mem_noNl : ∀ (s acc : List Char), '\n' ∉ acc →
    ∀ l ∈ splitLinesGo acc s, '\n' ∉ l
  | [], acc, ha => by
    intro l hl
    by_cases h : acc.isEmpty
    · simp [splitLinesGo, h] at hl
    · simp [splitLinesGo, h] at hl
      subst hl
      simpa using ha
  | c :: cs, acc, ha => by
    intro l hl
    by_cases hc : c = '\n'
    · subst hc
      simp only [splitLinesGo, if_pos rfl] at hl
      rcases List.mem_cons.mp hl with h | h
      · subst h; simpa using ha
      · exact splitLinesGo_mem_noNl cs [] (by simp) l h
    · simp only [splitLinesGo, if_neg hc] at hl
      refine splitLinesGo_mem_noNl cs (c :: acc) ?_ l hl
      intro h
      rcases List.mem_cons.mp h with h | h
      · exact hc h.symm
      · exact ha h
  termination_by s => s.length

theorem pySplitlines_noNl (s : String) : ∀ l ∈ pySplitlines s, '\n' ∉ l.data := by
  intro l hl
  unfold pySplitlines at hl
  rcases List.mem_map.mp hl with ⟨lc, hlc, rfl⟩
  exact splitLinesGo_mem_noNl s.data [] (by simp) lc hlc

theorem splitLinesGo_join_marker : ∀ (ls : List (List Char)), (∀ l ∈ ls, '\n' ∉ l) →
    splitLinesGo [] (joinSepCh ("\n".data) (ls ++ [("\n   [...]\n").data])) =
      ls ++ [[], ("   [...]").data]
  | [], _ => by decide
  | l :: t, h => by
    rw [List.cons_append, joinSepCh_cons _ _ _ (by simp)]
    have hstep : l ++ ("\n".data) ++ joinSepCh ("\n".data) (t ++ [("\n   [...]\n").data]) =
        l ++ '\n' :: joinSepCh ("\n".data) (t ++ [("\n   [...]\n").data]) := by
      simp [show ("\n".data : List Char) = '\n' :: [] from rfl]
    rw [hstep, splitLinesGo_append l [] _ (h l (List.mem_cons_self _ _)),
      splitLinesGo_join_marker t (fun x hx => h x (List.mem_cons_of_mem _ hx))]
    simp

theorem pySplitlines_truncJoin (ls : List String) (h : ∀ l ∈ ls, '\n' ∉ l.data) :
    pySplitlines (pyJoin "\n" (ls ++ ["\n   [...]\n"])) = ls ++ ["", "   [...]"] := by
  unfold pySplitlines
  rw [pyJoin_data, List.map_append]
  have hmap : List.map String.data ["\n   [...]\n"] = [("\n   [...]\n").data] := rfl
  rw [hmap, splitLinesGo_join_marker (ls.map String.data)
    (fun l hl => by rcases List.mem_map.mp hl with ⟨x, hx, rfl⟩; exact h x hx)]
  rw [List.map_append, List.map_map]
  have : ls.map (String.mk ∘ String.data) = ls := by
    refine List.map_congr_left (fun x _ => str_mk_data x) |>.trans (List.map_id ls)
  rw [this]
  rfl

/-! ## Helper lemmas: the truncation stage -/

theorem truncateContent_pos (serviceMax : Int) (optMax : Option Int) (content : String)
    (h1 : 0 < serviceMax) (h2 : optMax.getD serviceMax < ((pySplitlines content).length : Int)) :
    truncateContent serviceMax optMax content =
      pyJoin "\n" (pySlice0 (optMax.getD serviceMax) (pySplitlines content) ++ ["\n   [...]\n"]) := by
  unfold truncateContent
  rw [if_pos h1]
  show (if optMax.getD serviceMax < ((pySplitlines content).length : Int)
      then pyJoin "\n" (pySlice0 (optMax.getD serviceMax) (pySplitlines content) ++ ["\n   [...]\n"])
      else content) = _
  rw [if_pos h2]

theorem truncateContent_empty (serviceMax : Int) (optMax : Option Int)
    (h : serviceMax ≤ 0 ∨ 0 ≤ optMax.getD serviceMax) :
    truncateContent serviceMax optMax "" = "" := by
  unfold truncateContent
  by_cases hs : (0:Int) < serviceMax
  · have hcap : 0 ≤ optMax.getD serviceMax := by
      rcases h with h | h
      · omega
      · exact h
    have hlen : ¬ (optMax.getD serviceMax < ((pySplitlines "").length : Int)) := by
      rw [show pySplitlines "" = ([] : List String) from rfl]
      simp only [List.length_nil, Nat.cast_zero, not_lt]
      exact hcap
    rw [if_pos hs]
    show (if optMax.getD serviceMax < ((pySplitlines "").length : Int)
        then pyJoin "\n" (pySlice0 (optMax.getD serviceMax) (pySplitlines "") ++ ["\n   [...]\n"])
        else "") = ""
    rw [if_neg hlen]
  · rw [if_neg hs]

/-! ## Helper lemmas: the option merger -/

theorem mergeExtra_preserve (options : Options) : ∀ (ed : List (String × Value)) (k : String),
    (ed.find? (fun p => p.1 == k)).isSome = true →
    itemGet (mergeExtra ed options) k = itemGet ed k := by
  induction options with
  | nil => intro ed k _; rfl
  | cons kv rest ih =>
    intro ed k h
    obtain ⟨x, hx⟩ := Option.isSome_iff_exists.mp h
    have step : mergeExtra ed (kv :: rest) =
        mergeExtra (if (ed.find? (fun p => p.1 == kv.1)).isNone && !(GITHUB_DATA.contains kv.1)
          then ed ++ [kv] else ed) rest := rfl
    rw [step]
    by_cases hc : ((ed.find? (fun p => p.1 == kv.1)).isNone && !(GITHUB_DATA.contains kv.1)) = true
    · rw [if_pos hc, ih (ed ++ [kv]) k (by rw [List.find?_append, hx]; rfl)]
      unfold itemGet
      rw [List.find?_append, hx]
      rfl
    · rw [if_neg hc]
      exact ih ed k h

theorem mergeExtra_adds (options : Options) : ∀ (ed : List (String × Value)) (k : String) (v : Value),
    ed.find? (fun p => p.1 == k) = none →
    GITHUB_DATA.contains k = false →
    getOpt options k = some v →
    itemGet (mergeExtra ed options) k = some v := by
  induction options with
  | nil =>
    intro ed k v _ _ ho
    exact absurd ho (by simp [getOpt])
  | cons kv rest ih =>
    intro ed k v hk hg ho
    have step : mergeExtra ed (kv :: rest) =
        mergeExtra (if (ed.find? (fun p => p.1 == kv.1)).isNone && !(GITHUB_DATA.contains kv.1)
          then ed ++ [kv] else ed) rest := rfl
    rw [step]
    by_cases hkey : (kv.1 == k) = true
    · have hv : kv.2 = v := by
        unfold getOpt at ho
        rw [List.find?_cons_of_pos _ (by simpa using hkey)] at ho
        simpa using ho
      have hcond : ((ed.find? (fun p => p.1 == kv.1)).isNone && !(GITHUB_DATA.contains kv.1)) = true := by
        rw [eq_of_beq hkey, hk, hg]
        rfl
      rw [if_pos hcond,
        mergeExtra_preserve rest (ed ++ [kv]) k
          (by rw [List.find?_append, hk]
              show ([kv].find? (fun p => p.1 == k)).isSome = true
              rw [List.find?_cons_of_pos _ (by simpa using hkey)]
              rfl)]
      unfold itemGet
      rw [List.find?_append, hk]
      show ([kv].find? (fun p => p.1 == k)).map Prod.snd = some v
      rw [List.find?_cons_of_pos _ (by simpa using hkey)]
      simpa using hv
    · have ho' : getOpt rest k = some v := by
        unfold getOpt at ho ⊢
        rwa [List.find?_cons_of_neg _ (by simpa using hkey)] at ho
      by_cases hc : ((ed.find? (fun p => p.1 == kv.1)).isNone && !(GITHUB_DATA.contains kv.1)) = true
      · rw [if_pos hc]
        refine ih (ed ++ [kv]) k v ?_ hg ho'
        rw [List.find?_append, hk]
        show [kv].find? (fun p => p.1 == k) = none
        rw [List.find?_cons_of_neg _ (by simpa using hkey)]
        rfl
      · rw [if_neg hc]
        exact ih ed k v hk hg ho'

/-- Lookups of keys already present in `element_data` see the mapped value,
unchanged by the extra-options merge. -/
theorem processItem_structural (s : GithubService) (options : Options) (item : RawItem)
    (k : String) (h : ((s.elementData options item).find? (fun p => p.1 == k)).isSome = true) :
    itemGet (s.processItem options item) k = itemGet (s.elementData options item) k :=
  mergeExtra_preserve options (s.elementData options item) k h

theorem gh_subset_required (k : String) (h : k ∈ GITHUB_DATA) : k ∈ requiredItemKeys := by
  simp only [GITHUB_DATA, EXTRA_DATA_OPTIONS, EXTRA_LINK_OPTIONS, EXTRA_IMAGE_OPTIONS,
    List.mem_append, List.mem_cons, List.not_mem_nil, or_false] at h
  simp only [requiredItemKeys, List.mem_cons, List.not_mem_nil, or_false]
  tauto

/-! ## Claim theorems -/

/-- C1 (counterexample): with the configured default `max_content_lines = -1`
and caller option `max_content_lines = 2`, a body whose normalized form
spans five physical lines is returned untruncated and without any cutoff
marker — the caller's cap is NOT applied, refuting the claim's scenario. -/
theorem C1_counterexample :
    svcDflt.max_content_lines = -1 ∧
    itemGet (firstItem (svcDflt.request C1opts trA).1) "content" =
      some (.str ".. code-block:: text\n\n   a\n\n   b\n\n   c") ∧
    occursIn "[...]" ".. code-block:: text\n\n   a\n\n   b\n\n   c" = false := by
  refine ⟨rfl, rfl, rfl⟩

/-- C1 (amended): a caller-supplied `max_content_lines` takes precedence as
the truncation cap only when the configured service default is itself
positive; in that case truncation is applied at the caller's cap
(whatever the positive default is). -/
theorem C1_amended (s : GithubService) (options : Options) (item : RawItem) (cap : Int)
    (hopt : getOpt options "max_content_lines" = some (.int cap))
    (h1 : 0 < s.max_content_lines)
    (h2 : cap < ((pySplitlines (reflow item.body)).length : Int)) :
    itemGet (s.processItem options item) "content" =
      some (.str (".. code-block:: text\n\n   " ++
        pyJoin "\n" (pySlice0 cap (pySplitlines (reflow item.body)) ++ ["\n   [...]\n"]))) := by
  have hcontent : itemGet (s.processItem options item) "content" =
      some (.str (normalizeBody s.max_content_lines
        ((getOpt options "max_content_lines").map Value.toInt) item.body)) :=
    (processItem_structural s options item "content" rfl).trans rfl
  rw [hcontent, hopt]
  simp only [Option.map_some', Value.toInt]
  unfold normalizeBody normalizeContent
  rw [truncateContent_pos s.max_content_lines (some cap) (reflow item.body) h1
    (by simpa using h2)]
  simp only [Option.getD_some]

/-- C1 (witness): with configured default 1 and caller cap 2, the content is
truncated at the caller's cap of 2 physical lines. -/
theorem C1_amended_witness :
    itemGet (svcPos.processItem C1opts rawA) "content" =
      some (.str (".. code-block:: text\n\n   " ++
        pyJoin "\n" (pySlice0 2 (pySplitlines (reflow rawA.body)) ++ ["\n   [...]\n"]))) :=
  C1_amended svcPos C1opts rawA 2 (by decide) (by decide) (by decide)

/-- C2 (code bug): caller options named by the reserved internal field
names of `CONFIG_OPTIONS` (here `query` and `max_amount`) ARE merged into
the returned item, because the merge loop at github.py 157-160 filters on
`GITHUB_DATA` instead of the config options that the module's own comment
says "shall not be part of the later needs". -/
theorem C2_bug :
    itemGet (firstItem (svcDflt.request C2opts trA).1) "query" = some (.str "x") ∧
    itemGet (firstItem (svcDflt.request C2opts trA).1) "max_amount" = some (.int 10) ∧
    "query" ∈ CONFIG_OPTIONS ∧ "max_amount" ∈ CONFIG_OPTIONS := by
  refine ⟨rfl, rfl, by decide, by decide⟩

/-- C3 (counterexample): with configured cap 2 and a five-line reflowed
body, the truncation stage produces FOUR physical lines (two kept lines, a
blank line, and the marker line), not the claimed cap + 1 = 3; moreover
with a non-positive configured default the positive caller bound triggers
no truncation at all. -/
theorem C3_counterexample :
    pySplitlines (normalizeContent 2 none "a\nb\nc") = ["a", "", "", "   [...]"] ∧
    (pySplitlines (normalizeContent 2 none "a\nb\nc")).length ≠ 2 + 1 ∧
    normalizeContent (-1) (some 2) "a\nb\nc" = reflow "a\nb\nc" ∧
    occursIn "[...]" (reflow "a\nb\nc") = false := by
  refine ⟨rfl, by decide, rfl, rfl⟩

/-- C3 (amended): when the configured default bound is positive and the
reflowed content has more physical lines than the effective bound (caller
option, else the default), the truncated output consists of exactly the
first `bound` physical lines followed by one blank line and one cutoff
marker line (the appended marker string contains its own newlines). -/
theorem C3_amended (serviceMax : Int) (optMax : Option Int) (body : String)
    (h1 : 0 < serviceMax)
    (h2 : optMax.getD serviceMax < ((pySplitlines (reflow body)).length : Int))
    (h3 : 0 ≤ optMax.getD serviceMax) :
    pySplitlines (normalizeContent serviceMax optMax body) =
      (pySplitlines (reflow body)).take (optMax.getD serviceMax).toNat ++ ["", "   [...]"] := by
  unfold normalizeContent
  rw [truncateContent_pos serviceMax optMax (reflow body) h1 h2]
  have hsl : pySlice0 (optMax.getD serviceMax) (pySplitlines (reflow body)) =
      (pySplitlines (reflow body)).take (optMax.getD serviceMax).toNat := by
    unfold pySlice0
    rw [if_pos h3]
  rw [hsl]
  exact pySplitlines_truncJoin _
    (fun l hm => pySplitlines_noNl (reflow body) l (List.take_subset _ _ hm))

/-- C3 (witness): configured cap 2, five reflowed lines: output is the two
kept lines plus a blank line plus the marker line. -/
theorem C3_amended_witness :
    pySplitlines (normalizeContent 2 none "a\nb\nc") =
      (pySplitlines (reflow "a\nb\nc")).take 2 ++ ["", "   [...]"] :=
  C3_amended 2 none "a\nb\nc" (by decide) (by decide) (by decide)

/-- C4 (counterexample): the supported record kinds are `issue`, `pr`,
`commit`, so construction with kind `pull-request` — which the claim says
passes the kind check — fails with the KeyError naming the supported set. -/
theorem C4_counterexample :
    GithubService.init none none none none none none "needtype0" (some "pull-request") =
      .error (.keyError "github type \"pull-request\" not supported. Use: issue, pr, commit") := by
  rfl

/-- C4 (amended): construction passes the kind check exactly for the kinds
`issue`, `pr`, `commit`; an unsupported kind fails with a KeyError whose
message names that set; an absent kind fails with an AttributeError (which
does not name the set). -/
theorem C4_amended (urlC needTypeC : Option String) (maxAmountC maxContentLinesC : Option Int)
    (idPrefixC layoutC : Option String) (appNeedType : String) (t : String) :
    (exceptOk (GithubService.init urlC needTypeC maxAmountC maxContentLinesC idPrefixC layoutC
      appNeedType (some t)) = type_config_keys.contains t) ∧
    (type_config_keys.contains t = false →
      GithubService.init urlC needTypeC maxAmountC maxContentLinesC idPrefixC layoutC
          appNeedType (some t) =
        .error (.keyError ("github type \"" ++ t ++ "\" not supported. Use: " ++
          pyJoin ", " type_config_keys))) ∧
    (GithubService.init urlC needTypeC maxAmountC maxContentLinesC idPrefixC layoutC
      appNeedType none = .error .attributeError) := by
  refine ⟨?_, ?_, rfl⟩
  · simp only [GithubService.init]
    by_cases hc : type_config_keys.contains t = true
    · rw [if_pos hc, hc]
      rfl
    · have hf : type_config_keys.contains t = false := by
        cases hcc : type_config_keys.contains t
        · rfl
        · exact absurd hcc hc
      rw [if_neg hc, hf]
      rfl
  · intro hf
    simp only [GithubService.init]
    rw [if_neg (by rw [hf]; exact Bool.false_ne_true)]

/-- C4 (witness): `pr` passes the kind check, `graphql` fails naming
`issue, pr, commit`, and an absent kind fails with an AttributeError. -/
theorem C4_witness :
    exceptOk (GithubService.init none none none none none none "needtype0" (some "pr")) = true ∧
    GithubService.init none none none none none none "needtype0" (some "graphql") =
      .error (.keyError ("github type \"" ++ "graphql" ++ "\" not supported. Use: " ++
        pyJoin ", " type_config_keys)) ∧
    GithubService.init none none none none none none "needtype0" none = .error .attributeError :=
  ⟨(C4_amended none none none none none none "needtype0" "pr").1.trans (by decide),
   (C4_amended none none none none none none "needtype0" "graphql").2.1 (by decide),
   (C4_amended none none none none none none "needtype0" "graphql").2.2⟩

/-- C5 (confirmed): when the options mapping lacks the key `query`, the
request fails with the `NeedGithubServiceException` request error, the
transport-invocation count is zero, and the result does not depend on the
transport at all. -/
theorem C5_missing_query (s : GithubService) (options : Options)
    (transport : SendParams → List RawItem) (h : getOpt options "query" = none) :
    s.request options transport = (.error missingQueryError, 0) := by
  unfold GithubService.request
  rw [h]

/-- C5 (witness): concrete request without `query`: error and a transport
call counter of zero. -/
theorem C5_missing_query_witness :
    svcDflt.request noQueryOpts trA = (.error missingQueryError, 0) :=
  C5_missing_query svcDflt noQueryOpts trA (by decide)

/-- C6 (counterexample): the caller option `type`, named identically to the
required item key `type`, DOES change that field's final value (`custom`
instead of the configured default `needtype0`), refuting the claim's
universal first half. -/
theorem C6_counterexample :
    itemGet (firstItem (svcDflt.request C6opts trA).1) "type" = some (.str "custom") ∧
    itemGet (firstItem (svcDflt.request C6optsNoType trA).1) "type" = some (.str "needtype0") ∧
    Value.str "custom" ≠ Value.str "needtype0" ∧
    "type" ∈ requiredItemKeys := by
  refine ⟨rfl, rfl, by decide, by decide⟩

/-- C6 (amended): every structural field — `id`, `title`, `content`,
`status`, `tags`, `user`, `url`, `avatar`, `created_at`, `updated_at`,
`closed_at` — always carries its mapped value, so a caller option of the
same name never changes it; the required keys `type` and `layout` ARE
taken from caller options when present; and a caller option with a novel
key (not a required item key) always appears in the final item with
exactly its caller-supplied value. -/
theorem C6_amended (s : GithubService) (options : Options) (item : RawItem) :
    (itemGet (s.processItem options item) "id" =
      some (.str (((getOpt options "id_prefix").map Value.toStr).getD s.idPrefix ++
        toString item.number))) ∧
    (itemGet (s.processItem options item) "status" = some (.str item.state)) ∧
    (itemGet (s.processItem options item) "title" = some (.str item.title)) ∧
    (itemGet (s.processItem options item) "content" =
      some (.str (normalizeBody s.max_content_lines
        ((getOpt options "max_content_lines").map Value.toInt) item.body))) ∧
    (itemGet (s.processItem options item) "tags" =
      some (.str (pyJoin "," (item.labels.map Label.name)))) ∧
    (itemGet (s.processItem options item) "user" = some (.str item.user.login)) ∧
    (itemGet (s.processItem options item) "url" = some (.str item.html_url)) ∧
    (itemGet (s.processItem options item) "avatar" = some (.str item.user.avatar_url)) ∧
    (itemGet (s.processItem options item) "created_at" = some (.str item.created_at)) ∧
    (itemGet (s.processItem options item) "updated_at" = some (.str item.updated_at)) ∧
    (itemGet (s.processItem options item) "closed_at" = some (.str item.closed_at)) ∧
    (∀ v, getOpt options "type" = some v → itemGet (s.processItem options item) "type" = some v) ∧
    (∀ v, getOpt options "layout" = some v →
      itemGet (s.processItem options item) "layout" = some v) ∧
    (∀ k v, k ∉ requiredItemKeys → getOpt options k = some v →
      itemGet (s.processItem options item) k = some v) := by
  refine ⟨(processItem_structural s options item "id" rfl).trans rfl,
    (processItem_structural s options item "status" rfl).trans rfl,
    (processItem_structural s options item "title" rfl).trans rfl,
    (processItem_structural s options item "content" rfl).trans rfl,
    (processItem_structural s options item "tags" rfl).trans rfl,
    (processItem_structural s options item "user" rfl).trans rfl,
    (processItem_structural s options item "url" rfl).trans rfl,
    (processItem_structural s options item "avatar" rfl).trans rfl,
    (processItem_structural s options item "created_at" rfl).trans rfl,
    (processItem_structural s options item "updated_at" rfl).trans rfl,
    (processItem_structural s options item "closed_at" rfl).trans rfl, ?_, ?_, ?_⟩
  · intro v hv
    refine (processItem_structural s options item "type" rfl).trans ?_
    have : itemGet (s.elementData options item) "type" =
        some ((getOpt options "type").getD (.str s.need_type)) := rfl
    rw [this, hv]
    rfl
  · intro v hv
    refine (processItem_structural s options item "layout" rfl).trans ?_
    have : itemGet (s.elementData options item) "layout" =
        some ((getOpt options "layout").getD (.str s.layout)) := rfl
    rw [this, hv]
    rfl
  · intro k v hnm ho
    have hkeys : (s.elementData options item).map Prod.fst = requiredItemKeys := rfl
    have hk : (s.elementData options item).find? (fun p => p.1 == k) = none := by
      refine List.find?_eq_none.mpr (fun x hx hbeq => ?_)
      exact hnm (eq_of_beq hbeq ▸ (hkeys ▸ List.mem_map_of_mem Prod.fst hx))
    have hg : GITHUB_DATA.contains k = false := by
      cases hgd : GITHUB_DATA.contains k with
      | false => rfl
      | true => exact absurd (gh_subset_required k (List.elem_iff.mp hgd)) hnm
    exact mergeExtra_adds options _ k v hk hg ho

/-- C6 (witness): a caller `id` option does not change the mapped `id`,
`tags` keeps its mapped comma-join, the caller `type` and `layout`
options take effect, and the novel key `mynote` appears with its caller
value. -/
theorem C6_amended_witness :
    itemGet (svcDflt.processItem C6optsW rawA) "id" =
      some (.str (((getOpt C6optsW "id_prefix").map Value.toStr).getD svcDflt.idPrefix ++
        toString rawA.number)) ∧
    itemGet (svcDflt.processItem C6optsW rawA) "tags" =
      some (.str (pyJoin "," (rawA.labels.map Label.name))) ∧
    itemGet (svcDflt.processItem C6optsW rawA) "type" = some (.str "custom") ∧
    itemGet (svcDflt.processItem C6optsW rawA) "layout" = some (.str "mylay") ∧
    itemGet (svcDflt.processItem C6optsW rawA) "mynote" = some (.str "v") :=
  ⟨(C6_amended svcDflt C6optsW rawA).1,
   (C6_amended svcDflt C6optsW rawA).2.2.2.2.1,
   (C6_amended svcDflt C6optsW rawA).2.2.2.2.2.2.2.2.2.2.2.1 (.str "custom") (by decide),
   (C6_amended svcDflt C6optsW rawA).2.2.2.2.2.2.2.2.2.2.2.2.1 (.str "mylay") (by decide),
   (C6_amended svcDflt C6optsW rawA).2.2.2.2.2.2.2.2.2.2.2.2.2 "mynote" (.str "v")
     (by decide) (by decide)⟩

/-- C7 (counterexample): a caller-supplied non-positive `max_amount` of 0
is passed through as the `per_page` request parameter instead of falling
back to the configured default of 5. -/
theorem C7_counterexample :
    (svcDflt.sendParams "x" C7opts).per_page = Value.int 0 ∧
    svcDflt.max_amount = 5 ∧ Value.int 0 ≠ Value.int 5 := by
  refine ⟨rfl, rfl, by decide⟩

/-- C7 (amended): `per_page` falls back to the configured default exactly
when the caller supplies no `max_amount`; any caller-supplied value —
including a non-positive one — is passed through verbatim. -/
theorem C7_amended (s : GithubService) (q : String) (options : Options) :
    (getOpt options "max_amount" = none →
      (s.sendParams q options).per_page = Value.int s.max_amount) ∧
    (∀ v, getOpt options "max_amount" = some v → (s.sendParams q options).per_page = v) := by
  constructor
  · intro h
    show (getOpt options "max_amount").getD (.int s.max_amount) = Value.int s.max_amount
    rw [h]
    rfl
  · intro v h
    show (getOpt options "max_amount").getD (.int s.max_amount) = v
    rw [h]
    rfl

/-- C7 (witness): no caller limit falls back to the default 5; caller
limit 0 is passed through. -/
theorem C7_amended_witness :
    (svcDflt.sendParams "x" C6optsNoType).per_page = Value.int svcDflt.max_amount ∧
    (svcDflt.sendParams "x" C7opts).per_page = Value.int 0 :=
  ⟨(C7_amended svcDflt "x" C6optsNoType).1 (by decide),
   (C7_amended svcDflt "x" C7opts).2 (Value.int 0) (by decide)⟩

/-- C8 (confirmed): mapping a raw record and merging with empty caller
options changes nothing (the merge is the identity on an empty mapping),
and the resulting item's `tags` is the comma-join of the record's label
names in their original order. -/
theorem C8_roundtrip_tags (s : GithubService) (item : RawItem) :
    s.processItem [] item = s.elementData [] item ∧
    itemGet (s.processItem [] item) "tags" =
      some (.str (pyJoin "," (item.labels.map Label.name))) :=
  ⟨rfl, rfl⟩

/-- C9 (counterexample): for an empty body, when the configured default
bound is positive and the caller passes a negative bound, the output is
not exactly the literal-text-block marker — a spurious cutoff marker is
appended. -/
theorem C9_counterexample :
    normalizeBody 1 (some (-1)) "" = ".. code-block:: text\n\n   \n   [...]\n" ∧
    ".. code-block:: text\n\n   \n   [...]\n" ≠ ".. code-block:: text\n\n   " := by
  refine ⟨rfl, by decide⟩

/-- C9 (amended): for an empty body the output content is exactly the
literal-text-block marker followed by the continuation indent whenever the
configured default bound is non-positive or the effective bound is
non-negative (the exception being the degenerate positive-default,
negative-caller-bound corner); and in general every output block is the
marker-plus-indent prefix followed by the normalized content. -/
theorem C9_amended (serviceMax : Int) (optMax : Option Int) (body : String) :
    (serviceMax ≤ 0 ∨ 0 ≤ optMax.getD serviceMax →
      normalizeBody serviceMax optMax "" = ".. code-block:: text\n\n   ") ∧
    normalizeBody serviceMax optMax body =
      ".. code-block:: text\n\n   " ++ normalizeContent serviceMax optMax body := by
  constructor
  · intro h
    unfold normalizeBody normalizeContent
    rw [show reflow "" = "" from rfl, truncateContent_empty serviceMax optMax h]
    rfl
  · rfl

/-- C9 (witness): with the default configuration (`max_content_lines = -1`)
an empty body yields exactly the marker and indent, and a non-empty body's
output starts with the marker and indent. -/
theorem C9_amended_witness :
    normalizeBody (-1) none "" = ".. code-block:: text\n\n   " ∧
    normalizeBody (-1) none "a" =
      ".. code-block:: text\n\n   " ++ normalizeContent (-1) none "a" :=
  ⟨(C9_amended (-1) none "a").1 (Or.inl (by decide)), (C9_amended (-1) none "a").2⟩

/-- C10 (confirmed): the missing-`query` failure raises
`NeedGithubServiceException`, whose class subclasses `BaseException` but
not `Exception`, so a generic `except Exception` handler around
`request()` does not catch it. -/
theorem C10_uncatchable (s : GithubService) (options : Options)
    (transport : SendParams → List RawItem) (h : getOpt options "query" = none) :
    (s.request options transport).1 = .error missingQueryError ∧
    isSubclassOf (githubErrorClass missingQueryError) PyClass.baseException = true ∧
    caughtBy (githubErrorClass missingQueryError) PyClass.exception = false := by
  refine ⟨?_, rfl, rfl⟩
  unfold GithubService.request
  rw [h]

/-- C10 (witness): concrete request without `query`. -/
theorem C10_uncatchable_witness :
    (svcDflt.request noQueryOpts trA).1 = .error missingQueryError ∧
    isSubclassOf (githubErrorClass missingQueryError) PyClass.baseException = true ∧
    caughtBy (githubErrorClass missingQueryError) PyClass.exception = false :=
  C10_uncatchable svcDflt noQueryOpts trA (by decide)
